import Mathlib

/-!
# Verification of `cron_check.py` (internships-bot)

Shallow embedding of the core of `src/cron_check.py`:

* the change detector inside `check_for_new_roles` (lines 182–195),
* the message formatter `format_message` (lines 59–76),
* the per-channel delivery state machine `send_message` (lines 96–147),
* the startup configuration guard (lines 228–233),
* the orchestrator's event trace: task scheduling and the snapshot write
  (lines 197–212), under Python asyncio's cooperative scheduling.

Listings are JSON objects; the well-formed ones are embedded as the
structure `Listing` below.  A listing dict coming from the dataset always
has at least one key, so Python truthiness of a looked-up role dict
(`if old_role:`) coincides with presence in the map; the embedding models
the lookup with `Option`.
-/

set_option autoImplicit false

namespace CronCheck

/-- A listing record, the well-formed shape of one element of
`listings.json` (spec §3): the fields `cron_check.py` reads. -/
structure Listing where
  company_name : String
  title : String
  locations : List String
  url : String
  season : String
  sponsorship : String
  is_visible : Bool
  active : Bool
  deriving Repr, DecidableEq

/-- Identity key `(role['title'], role['company_name'])` used at lines 186
and 189 of `cron_check.py`. -/
def keyOf (r : Listing) : String × String :=
  (r.title, r.company_name)

/-- Lookup in the dict comprehension
`{(role['title'], role['company_name']): role for role in old_data}`
(line 186).  In a Python dict comprehension later entries overwrite earlier
ones sharing a key, so the lookup returns the last listing of `old` with
the given key; we model this by searching the reversed list. -/
def oldRolesDictGet (old : List Listing) (k : String × String) : Option Listing :=
  old.reverse.find? (fun r => keyOf r == k)

/-- The loop at lines 188–195 of `check_for_new_roles`: for each role of
the current dataset in order, skip it when its key is present in the old
dict (`if old_role: continue`), else append it when
`new_role['is_visible'] and new_role['active']`. -/
def detectNew (old : List Listing) : List Listing → List Listing
  | [] => []
  | r :: rest =>
      match oldRolesDictGet old (keyOf r) with
      | some _ => detectNew old rest
      | none =>
          if r.is_visible && r.active then r :: detectNew old rest
          else detectNew old rest

/-- Whether the identity key of `r` is present among the keys of `old`. -/
def keyPresent (old : List Listing) (r : Listing) : Bool :=
  old.any (fun p => keyOf p == keyOf r)

/-- `', '.join(role['locations']) if role['locations'] else 'Not specified'`
(line 67): an empty Python list is falsy, so the fallback literal is used
exactly when the list is empty. -/
def locationStr (locs : List String) : String :=
  match locs with
  | [] => "Not specified"
  | ls => String.intercalate ", " ls

/-- `format_message` (lines 59–76).  The embedded timestamp
`datetime.now().strftime('%B, %d')` is sampled exactly once per render; it
is passed here as the parameter `now`. -/
def formatMessage (now : String) (r : Listing) : String :=
  "\n>>> # " ++ r.company_name ++ " just posted a new internship!\n\n### Role: " ++
    ("[" ++ r.title ++ "](<" ++ r.url ++ ">)") ++ "\n### Location: " ++
    locationStr r.locations ++
    "\n### Season: " ++ r.season ++ "\n### Sponsorship: `" ++ r.sponsorship ++
    "`\n### Posted on: " ++ now ++ "\n"

/-- `s` contains `sub` as a contiguous substring. -/
def ContainsStr (s sub : String) : Prop :=
  ∃ a b : String, s = a ++ sub ++ b

/-- A raw role as a JSON object: each field the formatter reads may be
absent from the dict. -/
structure RoleDict where
  locations : Option (List String)
  company_name : Option String
  title : Option String
  url : Option String
  season : Option String
  sponsorship : Option String
  deriving Repr, DecidableEq

/-- A Python dict subscript `role[k]`: raises `KeyError` when the key is
absent. -/
def dictGetKey {α : Type} (v : Option α) (k : String) : Except String α :=
  match v with
  | some x => Except.ok x
  | none => Except.error ("KeyError: " ++ k)

/-- `format_message` over a raw role dict, with field accesses in the
order Python evaluates them: `role['locations']` on line 67 first, then the
f-string pieces `company_name`, `title`, `url`, `season`, `sponsorship`.
A missing key aborts the render with the corresponding `KeyError`. -/
def formatMessageDict (now : String) (d : RoleDict) : Except String String := do
  let locs ← dictGetKey d.locations "locations"
  let cn ← dictGetKey d.company_name "company_name"
  let t ← dictGetKey d.title "title"
  let u ← dictGetKey d.url "url"
  let se ← dictGetKey d.season "season"
  let sp ← dictGetKey d.sponsorship "sponsorship"
  Except.ok ("\n>>> # " ++ cn ++ " just posted a new internship!\n\n### Role: [" ++
    t ++ "](<" ++ u ++ ">)\n### Location: " ++ locationStr locs ++
    "\n### Season: " ++ se ++ "\n### Sponsorship: `" ++ sp ++
    "`\n### Posted on: " ++ now ++ "\n")

/-! ## Delivery dispatcher state machine (`send_message`, lines 96–147) -/

/-- The category of a delivery error, as the transport distinguishes them
(`discord.NotFound`, `discord.Forbidden`, anything else). -/
inductive ErrKind where
  | notFound
  | forbidden
  | other
  deriving Repr, DecidableEq, BEq

/-- The outcome the external transport produces for one call of
`send_message`:

* `sendOk v` – the channel was obtained (from cache if `v = false`, via
  `fetch_channel` if `v = true`) and `channel.send` succeeded;
* `sendErr v k` – the channel was obtained but `channel.send` raised an
  exception of category `k`; the handler at lines 142–147 is
  `except Exception` and does not inspect `k`;
* `fetchNotFound` / `fetchForbidden` / `fetchOtherErr` – the channel was
  not in cache and `fetch_channel` raised (lines 116–131). -/
inductive Attempt where
  | sendOk (viaFetch : Bool)
  | sendErr (viaFetch : Bool) (kind : ErrKind)
  | fetchNotFound
  | fetchForbidden
  | fetchOtherErr
  deriving Repr, DecidableEq, BEq

/-- `MAX_RETRIES = 3` (line 20). -/
def MAX_RETRIES : Nat := 3

/-- The process-wide mutable failure state: the set `failed_channels` and
the dict `channel_failure_counts` (lines 26–27), modelled as a list and an
association list. -/
structure DState where
  failed_channels : List String
  channel_failure_counts : List (String × Nat)
  deriving Repr, DecidableEq

/-- Both containers start empty at process start. -/
def initState : DState := ⟨[], []⟩

/-- `channel_failure_counts.get(ch, 0)`. -/
def countsGet (m : List (String × Nat)) (c : String) : Nat :=
  match m.find? (fun p => p.1 == c) with
  | some p => p.2
  | none => 0

/-- Dict assignment `channel_failure_counts[ch] = n` (observational model:
the new binding shadows any previous one). -/
def countsSet (m : List (String × Nat)) (c : String) (n : Nat) : List (String × Nat) :=
  (c, n) :: m.filter (fun p => !(p.1 == c))

/-- `del channel_failure_counts[ch]` (line 138). -/
def countsDel (m : List (String × Nat)) (c : String) : List (String × Nat) :=
  m.filter (fun p => !(p.1 == c))

/-- The failure-counting branch (lines 118–120, 128–130, 144–147):
increment the channel's count and blacklist it once the count reaches
`MAX_RETRIES`. -/
def recordFailure (ch : String) (s : DState) : DState :=
  let n := countsGet s.channel_failure_counts ch + 1
  { failed_channels :=
      if MAX_RETRIES ≤ n then ch :: s.failed_channels else s.failed_channels,
    channel_failure_counts := countsSet s.channel_failure_counts ch n }

/-- One call of `send_message(message, ch)` (lines 96–147) given the
transport outcome `a`:

* a blacklisted channel is skipped without any attempt (lines 104–106);
* success deletes the channel's failure count (lines 136–138);
* `discord.Forbidden` from `fetch_channel` blacklists immediately
  (lines 122–125);
* `discord.NotFound` from `fetch_channel`, any other `fetch_channel`
  error, and any exception from `channel.send` are counted uniformly. -/
def sendMessage (ch : String) (a : Attempt) (s : DState) : DState :=
  if s.failed_channels.contains ch then s
  else
    match a with
    | .sendOk _ => { s with channel_failure_counts := countsDel s.channel_failure_counts ch }
    | .sendErr _ _ => recordFailure ch s
    | .fetchNotFound => recordFailure ch s
    | .fetchForbidden => { s with failed_channels := ch :: s.failed_channels }
    | .fetchOtherErr => recordFailure ch s

/-- A sequence of delivery attempts to the same channel, in order. -/
def runAttempts (ch : String) (as : List Attempt) (s : DState) : DState :=
  as.foldl (fun s a => sendMessage ch a s) s

/-- `send_messages_to_channels` (lines 149–162) creates one send coroutine
per configured channel not currently in `failed_channels` and gathers
them. -/
def dispatchTargets (channelIds : List String) (failed : List String) : List String :=
  channelIds.filter (fun c => !(failed.contains c))

/-! ## Startup configuration guard (lines 18–19 and 228–233) -/

/-- Python `x != ''` where `x = os.getenv('DISCORD_TOKEN')`: `None`
(absent variable, modelled `none`) is not equal to `''`, so the comparison
is true for an absent token. -/
def tokenNeEmptyStr (t : Option String) : Bool :=
  match t with
  | none => true
  | some s => !(s == "")

/-- Python `CHANNEL_IDS != ''` where `CHANNEL_IDS` is a list (line 19): a
list never equals a string, so the comparison is true for every list,
including the empty one. -/
def channelIdsNeEmptyStr (_cs : List String) : Bool := true

/-- Line 19: `os.getenv('CHANNEL_IDS', '').split(',') if
os.getenv('CHANNEL_IDS') else []` — an absent or empty variable yields the
empty list, otherwise the comma-split. -/
def channelIdsFromEnv (e : Option String) : List String :=
  match e with
  | none => []
  | some s => if s == "" then [] else s.splitOn ","

/-- The guard at line 229: `if DISCORD_TOKEN != '' and CHANNEL_IDS != '':`
— `true` means the program proceeds to `client.run(DISCORD_TOKEN)`,
`false` means it prints the error and calls `exit(1)`. -/
def startupRunsClient (tok : Option String) (cids : List String) : Bool :=
  tokenNeEmptyStr tok && channelIdsNeEmptyStr cids

/-! ## Orchestrator event trace (lines 197–212) under asyncio scheduling -/

/-- Observable events of one run: a dispatch task being scheduled, the
snapshot file being written, a scheduled dispatch task being executed by
the event loop. -/
inductive Event where
  | taskCreated (msg : String)
  | snapshotWritten (data : List Listing)
  | taskRan (msg : String)
  deriving Repr, DecidableEq

/-- The event loop's state while the synchronous orchestrator body runs:
the queue of scheduled-but-not-yet-run tasks, and the trace so far. -/
structure LoopState where
  pending : List String
  trace : List Event
  deriving Repr

/-- `client.loop.create_task(send_messages_to_channels(message))`
(line 200): schedules the coroutine and returns immediately without
running it. -/
def createTask (m : String) (st : LoopState) : LoopState :=
  { pending := st.pending ++ [m], trace := st.trace ++ [Event.taskCreated m] }

/-- The write of `previous_data.json` with the just-fetched dataset
(lines 210–212). -/
def writeSnapshot (d : List Listing) (st : LoopState) : LoopState :=
  { st with trace := st.trace ++ [Event.snapshotWritten d] }

/-- The synchronous tail of `check_for_new_roles` after both datasets are
loaded (lines 182–212): compute `new_roles`, schedule one dispatch task
per new role (lines 198–200), then write the snapshot unconditionally
(lines 209–212).  The function is synchronous (`def`, no `await`), so it
runs to completion before the event loop regains control. -/
def checkForNewRolesSync (old new : List Listing) (now : String) (st : LoopState) : LoopState :=
  writeSnapshot new
    ((detectNew old new).foldl (fun s r => createTask (formatMessage now r) s) st)

/-- Asyncio cooperative scheduling: tasks created with `create_task` run
only once the currently executing callback yields control, which here
happens only after `check_for_new_roles` returns; the loop then executes
the pending tasks. -/
def drainPending (st : LoopState) : List Event :=
  st.trace ++ st.pending.map Event.taskRan

/-- The event trace of one run whose previous snapshot is `old` and whose
successfully loaded current dataset is `new`. -/
def runTrace (old new : List Listing) (now : String) : List Event :=
  drainPending (checkForNewRolesSync old new now ⟨[], []⟩)

def isTaskRan : Event → Bool
  | .taskRan _ => true
  | _ => false

def isTaskCreated : Event → Bool
  | .taskCreated _ => true
  | _ => false

/-- The snapshot contents written during a trace, in order. -/
def writesOf (tr : List Event) : List (List Listing) :=
  tr.filterMap (fun e =>
    match e with
    | .snapshotWritten d => some d
    | _ => none)

/-- Every dispatch-task execution precedes every snapshot write: after any
`snapshotWritten` event, no `taskRan` event occurs. -/
def tasksCompleteBeforeWrite : List Event → Bool
  | [] => true
  | Event.snapshotWritten _ :: rest =>
      rest.all (fun e => !isTaskRan e) && tasksCompleteBeforeWrite rest
  | _ :: rest => tasksCompleteBeforeWrite rest

/-- Whether an `Except` computation succeeded. -/
def exOk {ε α : Type} : Except ε α → Bool
  | .ok _ => true
  | .error _ => false

/-- A concrete well-formed listing, used to instantiate theorems. -/
def sampleA : Listing :=
  { company_name := "Acme", title := "SWE Intern", locations := ["Remote"],
    url := "https://x", season := "Summer 2025", sponsorship := "Offers Sponsorship",
    is_visible := true, active := true }

/-- A second concrete listing with a different identity key. -/
def sampleB : Listing :=
  { company_name := "Globex", title := "PM Intern", locations := [],
    url := "https://y", season := "Summer 2025", sponsorship := "No",
    is_visible := true, active := true }

/-! ## Helper lemmas -/

theorem isSome_find?_eq_any {α : Type} (p : α → Bool) (l : List α) :
    (l.find? p).isSome = l.any p := by
  induction l with
  | nil => rfl
  | cons a l ih => cases h : p a <;> simp [List.find?_cons, h, ih]

theorem oldRolesDictGet_isSome_iff (old : List Listing) (r : Listing) :
    (oldRolesDictGet old (keyOf r)).isSome = keyPresent old r := by
  unfold oldRolesDictGet keyPresent
  rw [isSome_find?_eq_any]
  simp [List.any_eq, List.mem_reverse]

theorem detectNew_eq_filter_aux (old new : List Listing) :
    detectNew old new =
      new.filter (fun r => !keyPresent old r && (r.is_visible && r.active)) := by
  induction new with
  | nil => rfl
  | cons r rest ih =>
      unfold detectNew
      rcases h : oldRolesDictGet old (keyOf r) with _ | p
      · have hk : keyPresent old r = false := by
          rw [← oldRolesDictGet_isSome_iff, h]; rfl
        cases hv : r.is_visible && r.active
        · simp [List.filter_cons, hk, hv, ih]
        · simp [List.filter_cons, hk, hv, ih]
      · have hk : keyPresent old r = true := by
          rw [← oldRolesDictGet_isSome_iff, h]; rfl
        simp [List.filter_cons, hk, ih]

theorem foldl_createTask (now : String) (rs : List Listing) (st : LoopState) :
    rs.foldl (fun s r => createTask (formatMessage now r) s) st =
      { pending := st.pending ++ rs.map (formatMessage now),
        trace := st.trace ++ rs.map (fun r => Event.taskCreated (formatMessage now r)) } := by
  induction rs generalizing st with
  | nil => simp
  | cons r rs ih =>
      rw [List.foldl_cons, ih]
      simp [createTask]

theorem runTrace_eq (old new : List Listing) (now : String) :
    runTrace old new now =
      ((detectNew old new).map (fun r => Event.taskCreated (formatMessage now r)))
        ++ [Event.snapshotWritten new]
        ++ ((detectNew old new).map (fun r => Event.taskRan (formatMessage now r))) := by
  unfold runTrace checkForNewRolesSync drainPending writeSnapshot
  rw [foldl_createTask]
  simp [List.map_map, Function.comp]

theorem countsGet_countsSet_self (m : List (String × Nat)) (c : String) (n : Nat) :
    countsGet (countsSet m c n) c = n := by
  unfold countsGet countsSet
  rw [List.find?_cons_of_pos _ (by simp)]

theorem countsGet_countsDel_self (m : List (String × Nat)) (c : String) :
    countsGet (countsDel m c) c = 0 := by
  unfold countsGet countsDel
  induction m with
  | nil => rfl
  | cons p m ih =>
      by_cases h : p.1 == c
      · simpa [List.filter_cons, h] using ih
      · rw [List.filter_cons_of_pos (by simpa using h)]
        rw [List.find?_cons_of_neg _ (by simpa using h)]
        exact ih

theorem filterMap_const_none {A B : Type} (l : List A) :
    l.filterMap (fun _ => (none : Option B)) = [] := by
  induction l with
  | nil => rfl
  | cons a l ih => simp [List.filterMap_cons, ih]

theorem sendMessage_skip (ch : String) (a : Attempt) (t : DState)
    (ht : t.failed_channels.contains ch = true) : sendMessage ch a t = t := by
  unfold sendMessage
  rw [ht]
  simp

theorem runAttempts_skip (ch : String) (as : List Attempt) (t : DState)
    (ht : t.failed_channels.contains ch = true) : runAttempts ch as t = t := by
  induction as with
  | nil => rfl
  | cons a as ih =>
      unfold runAttempts
      rw [List.foldl_cons, sendMessage_skip ch a t ht]
      exact ih

/-! ## Claim theorems -/

/-- C1: for every previous snapshot `old` and current dataset `new`, the
change detector returns exactly the listings of `new` whose identity key
is absent from the key set of `old` and whose `is_visible` and `active`
flags are both true — as a filter of `new`, hence in `new`'s original
relative order; and a listing whose key is present in `old` is excluded
regardless of its flags or other fields. -/
theorem detectNew_spec (old new : List Listing) :
    detectNew old new
        = new.filter (fun r => !keyPresent old r && (r.is_visible && r.active)) ∧
      ∀ r, keyPresent old r = true → r ∉ detectNew old new := by
  refine ⟨detectNew_eq_filter_aux old new, ?_⟩
  intro r hk hmem
  rw [detectNew_eq_filter_aux] at hmem
  have := List.of_mem_filter hmem
  simp [hk] at this

/-- C2 (refuted by the code): the startup guard at line 229 compares the
token from `os.getenv` — Python `None` when the variable is absent —
against the empty string, and compares the `CHANNEL_IDS` list against the
empty string.  `None` is not equal to the empty string and a list is never
equal to a string, so with both variables unset the guard passes and the
program proceeds to `client.run(None)` instead of printing the error and
calling `exit(1)`; the `exit(1)` branch is reached only when the token is
set to the empty string. -/
theorem startup_guard_passes_without_config :
    startupRunsClient none (channelIdsFromEnv none) = true ∧
      channelIdsFromEnv none = [] ∧
      startupRunsClient (some "") (channelIdsFromEnv none) = false :=
  ⟨rfl, rfl, rfl⟩

/-- C8: diffing a snapshot with pairwise-distinct identity keys against
itself yields no new roles: every listing of the snapshot finds its own
key in the lookup dict and is skipped. -/
theorem detectNew_self_nil (P : List Listing)
    (_h : List.Pairwise (fun a b => keyOf a ≠ keyOf b) P) :
    detectNew P P = [] := by
  rw [detectNew_eq_filter_aux]
  apply List.filter_eq_nil_iff.mpr
  intro r hr
  have hk : keyPresent P r = true := by
    unfold keyPresent
    exact List.any_eq_true.mpr ⟨r, hr, by simp⟩
  simp [hk]

/-- Witness for C8: a concrete two-listing snapshot with distinct keys. -/
theorem detectNew_self_nil_witness :
    List.Pairwise (fun a b => keyOf a ≠ keyOf b) [sampleA, sampleB] ∧
      detectNew [sampleA, sampleB] [sampleA, sampleB] = [] :=
  ⟨by decide, detectNew_self_nil [sampleA, sampleB] (by decide)⟩

/-- C9: occurrences sharing one identity key within a single current
dataset are not deduplicated: when a listing `r` whose key is absent from
`P` and whose flags are both true occurs several times in `C`, every
occurrence is kept (the multiplicity of `r` is preserved), and the
orchestrator schedules exactly one dispatch task per element of the
new-roles list. -/
theorem detectNew_no_dedup (P C : List Listing) (r : Listing) (now : String)
    (hk : keyPresent P r = false) (hv : r.is_visible = true) (ha : r.active = true) :
    (detectNew P C).count r = C.count r ∧
      ((runTrace P C now).filter isTaskCreated).length = (detectNew P C).length := by
  constructor
  · rw [detectNew_eq_filter_aux]
    exact List.count_filter (by simp [hk, hv, ha])
  · rw [runTrace_eq]
    simp [isTaskCreated, List.filter_append, List.filter_map, Function.comp_def]

/-- Witness for C9: the same listing twice in the current dataset against
an empty previous snapshot keeps both occurrences. -/
theorem detectNew_no_dedup_witness :
    keyPresent [] sampleA = false ∧ sampleA.is_visible = true ∧ sampleA.active = true ∧
      ((detectNew [] [sampleA, sampleA]).count sampleA
          = [sampleA, sampleA].count sampleA ∧
        ((runTrace [] [sampleA, sampleA] "June, 05").filter isTaskCreated).length
          = (detectNew [] [sampleA, sampleA]).length) ∧
      (detectNew [] [sampleA, sampleA]).count sampleA = 2 :=
  ⟨by decide, by decide, by decide,
    detectNew_no_dedup [] [sampleA, sampleA] sampleA "June, 05"
      (by decide) (by decide) (by decide),
    by decide⟩

/-- C3 counterexample: a forbidden (permission-denied) error raised by
`channel.send` on a cached channel falls into the generic
`except Exception` handler (lines 142–147), which only counts it: after
the first such delivery attempt the destination is **not** in
`failed_channels` (its failure count is 1), so delivery to it will be
attempted again — refuting the claim that the first permission-denied
failure always blacklists with no retry budget. -/
theorem sendForbidden_first_attempt_not_blacklisted :
    (sendMessage "c" (Attempt.sendErr false ErrKind.forbidden) initState).failed_channels
        = [] ∧
      countsGet (sendMessage "c" (Attempt.sendErr false ErrKind.forbidden)
          initState).channel_failure_counts "c" = 1 := by
  constructor <;> rfl

/-- C3 amended: a permission-denied error raised while resolving the
channel (`discord.Forbidden` from `fetch_channel`, lines 122–125)
blacklists the destination immediately with no retry budget, and a
blacklisted destination is skipped — its state never changes and no
delivery is attempted — for any sequence of later attempts in the process
lifetime; a permission-denied error raised by the send call itself,
however, is handled by the generic `except Exception` branch and only
increments the failure count like any other send error. -/
theorem fetchForbidden_blacklists (ch : String) (s t : DState)
    (as : List Attempt) (v : Bool)
    (hs : s.failed_channels.contains ch = false)
    (ht : t.failed_channels.contains ch = true) :
    (sendMessage ch Attempt.fetchForbidden s).failed_channels.contains ch = true ∧
      runAttempts ch as t = t ∧
      countsGet (sendMessage ch (Attempt.sendErr v ErrKind.forbidden)
          s).channel_failure_counts ch
        = countsGet s.channel_failure_counts ch + 1 := by
  refine ⟨?_, runAttempts_skip ch as t ht, ?_⟩
  · unfold sendMessage
    rw [hs]
    simp
  · unfold sendMessage
    rw [hs]
    simp [recordFailure, countsGet_countsSet_self]

/-- Witness for C3's amended theorem: channel "c", a fresh state and a
state in which "c" is already blacklisted. -/
theorem fetchForbidden_blacklists_witness :
    initState.failed_channels.contains "c" = false ∧
      (DState.mk ["c"] []).failed_channels.contains "c" = true ∧
      ((sendMessage "c" Attempt.fetchForbidden initState).failed_channels.contains "c"
          = true ∧
        runAttempts "c" [Attempt.sendOk true, Attempt.fetchNotFound]
            (DState.mk ["c"] []) = DState.mk ["c"] [] ∧
        countsGet (sendMessage "c" (Attempt.sendErr false ErrKind.forbidden)
            initState).channel_failure_counts "c"
          = countsGet initState.channel_failure_counts "c" + 1) :=
  ⟨by decide, by decide,
    fetchForbidden_blacklists "c" initState (DState.mk ["c"] [])
      [Attempt.sendOk true, Attempt.fetchNotFound] false (by decide) (by decide)⟩

/-- C4: for a destination not yet blacklisted, every not-found and every
other non-forbidden delivery error increments its failure count by one,
and the destination lands in `failed_channels` exactly when the new count
reaches `MAX_RETRIES = 3`; a successful delivery resets the count to zero
and leaves `failed_channels` unchanged (so it never un-blacklists); and
concretely, a fresh destination failing with not-found twice and then
succeeding ends with failure count 0 and is not blacklisted. -/
theorem sendMessage_failure_counting (ch : String) (s : DState) (a : Attempt) (v : Bool)
    (hs : s.failed_channels.contains ch = false)
    (ha : a = Attempt.fetchNotFound ∨ a = Attempt.fetchOtherErr ∨
      ∃ w k, k ≠ ErrKind.forbidden ∧ a = Attempt.sendErr w k) :
    MAX_RETRIES = 3 ∧
      countsGet (sendMessage ch a s).channel_failure_counts ch
          = countsGet s.channel_failure_counts ch + 1 ∧
      ((sendMessage ch a s).failed_channels.contains ch = true ↔
        MAX_RETRIES ≤ countsGet s.channel_failure_counts ch + 1) ∧
      countsGet (sendMessage ch (Attempt.sendOk v) s).channel_failure_counts ch = 0 ∧
      (sendMessage ch (Attempt.sendOk v) s).failed_channels = s.failed_channels ∧
      countsGet (runAttempts "c" [Attempt.fetchNotFound, Attempt.fetchNotFound,
          Attempt.sendOk true] initState).channel_failure_counts "c" = 0 ∧
      (runAttempts "c" [Attempt.fetchNotFound, Attempt.fetchNotFound,
          Attempt.sendOk true] initState).failed_channels.contains "c" = false := by
  have hstep : sendMessage ch a s = recordFailure ch s := by
    rcases ha with rfl | rfl | ⟨w, k, -, rfl⟩ <;>
      · unfold sendMessage
        rw [hs]
        simp
  refine ⟨rfl, ?_, ?_, ?_, ?_, by decide, by decide⟩
  · rw [hstep]
    simp [recordFailure, countsGet_countsSet_self]
  · rw [hstep]
    unfold recordFailure
    by_cases h3 : MAX_RETRIES ≤ countsGet s.channel_failure_counts ch + 1
    · simp [h3]
    · simp [h3]
      simpa using hs
  · unfold sendMessage
    rw [hs]
    simp [countsGet_countsDel_self]
  · unfold sendMessage
    rw [hs]
    simp

/-- Witness for C4: channel "c", a fresh state, the not-found fetch
error. -/
theorem sendMessage_failure_counting_witness :
    initState.failed_channels.contains "c" = false ∧
      (MAX_RETRIES = 3 ∧
        countsGet (sendMessage "c" Attempt.fetchNotFound
            initState).channel_failure_counts "c"
          = countsGet initState.channel_failure_counts "c" + 1 ∧
        ((sendMessage "c" Attempt.fetchNotFound initState).failed_channels.contains "c"
            = true ↔
          MAX_RETRIES ≤ countsGet initState.channel_failure_counts "c" + 1) ∧
        countsGet (sendMessage "c" (Attempt.sendOk false)
            initState).channel_failure_counts "c" = 0 ∧
        (sendMessage "c" (Attempt.sendOk false) initState).failed_channels
          = initState.failed_channels ∧
        countsGet (runAttempts "c" [Attempt.fetchNotFound, Attempt.fetchNotFound,
            Attempt.sendOk true] initState).channel_failure_counts "c" = 0 ∧
        (runAttempts "c" [Attempt.fetchNotFound, Attempt.fetchNotFound,
            Attempt.sendOk true] initState).failed_channels.contains "c" = false) :=
  ⟨by decide,
    sendMessage_failure_counting "c" initState Attempt.fetchNotFound false
      (by decide) (Or.inl rfl)⟩

/-- Sanity: the exact rendered message on a concrete listing matches the
f-string of `format_message` verbatim. -/
theorem formatMessage_sample :
    formatMessage "June, 05" sampleA =
      "\n>>> # Acme just posted a new internship!\n\n### Role: [SWE Intern](<https://x>)\n### Location: Remote\n### Season: Summer 2025\n### Sponsorship: `Offers Sponsorship`\n### Posted on: June, 05\n" := by
  rfl

/-- C5 counterexample: with an empty previous snapshot and one visible,
active listing, the trace of a run is [task scheduled, snapshot written,
task executed]: the dispatch task created by `client.loop.create_task` is
executed only after the orchestrator has already written the snapshot
(the synchronous `check_for_new_roles` never yields before the write), so
it is false that all dispatch tasks complete before the snapshot
write. -/
theorem dispatch_task_runs_after_write :
    runTrace [] [sampleA] "June, 05" =
        [Event.taskCreated (formatMessage "June, 05" sampleA),
         Event.snapshotWritten [sampleA],
         Event.taskRan (formatMessage "June, 05" sampleA)] ∧
      tasksCompleteBeforeWrite (runTrace [] [sampleA] "June, 05") = false := by
  constructor <;> rfl

/-- C5 amended: the dispatch phase schedules one fire-and-forget task per
new listing (each task then fans out inside `send_messages_to_channels` to
every destination not yet blacklisted), and the orchestrator writes the
snapshot without waiting for them: in every run's trace all task-creation
events come first, then the snapshot write, and only after it do the
scheduled tasks execute. -/
theorem runTrace_write_before_tasks (old new : List Listing) (now : String) :
    runTrace old new now =
      ((detectNew old new).map (fun r => Event.taskCreated (formatMessage now r)))
        ++ [Event.snapshotWritten new]
        ++ ((detectNew old new).map (fun r => Event.taskRan (formatMessage now r))) :=
  runTrace_eq old new now

/-- C6: every run that successfully loads the current dataset performs
exactly one snapshot write, whose contents are the just-fetched dataset
verbatim — a full replacement, written unconditionally even when no new
listings were detected. -/
theorem snapshot_overwritten_unconditionally (old new : List Listing) (now : String) :
    writesOf (runTrace old new now) = [new] := by
  unfold writesOf
  rw [runTrace_eq]
  simp [List.filterMap_append, List.filterMap_map, Function.comp_def,
    filterMap_const_none]

/-- C7: the rendered message contains the company name, the title as a
link built from the listing's url, the location string — the comma-joined
locations, or the literal fallback exactly when the locations list is
empty — and the season and sponsorship values; the timestamp is sampled
once per render (the single `now` parameter) and embedded in the
output. -/
theorem formatMessage_renders_fields (now : String) (r : Listing) :
    ContainsStr (formatMessage now r) r.company_name ∧
      ContainsStr (formatMessage now r) ("[" ++ r.title ++ "](<" ++ r.url ++ ">)") ∧
      ContainsStr (formatMessage now r) (locationStr r.locations) ∧
      locationStr [] = "Not specified" ∧
      (∀ l ls, locationStr (l :: ls) = String.intercalate ", " (l :: ls)) ∧
      ContainsStr (formatMessage now r) r.season ∧
      ContainsStr (formatMessage now r) r.sponsorship ∧
      ContainsStr (formatMessage now r) now := by
  refine ⟨⟨"\n>>> # ",
      " just posted a new internship!\n\n### Role: " ++
        ("[" ++ r.title ++ "](<" ++ r.url ++ ">)") ++ "\n### Location: " ++
        locationStr r.locations ++ "\n### Season: " ++ r.season ++
        "\n### Sponsorship: `" ++ r.sponsorship ++ "`\n### Posted on: " ++ now ++ "\n",
      ?_⟩,
    ⟨"\n>>> # " ++ r.company_name ++ " just posted a new internship!\n\n### Role: ",
      "\n### Location: " ++ locationStr r.locations ++ "\n### Season: " ++ r.season ++
        "\n### Sponsorship: `" ++ r.sponsorship ++ "`\n### Posted on: " ++ now ++ "\n",
      ?_⟩,
    ⟨"\n>>> # " ++ r.company_name ++ " just posted a new internship!\n\n### Role: " ++
        ("[" ++ r.title ++ "](<" ++ r.url ++ ">)") ++ "\n### Location: ",
      "\n### Season: " ++ r.season ++
        "\n### Sponsorship: `" ++ r.sponsorship ++ "`\n### Posted on: " ++ now ++ "\n",
      ?_⟩,
    rfl, fun l ls => rfl,
    ⟨"\n>>> # " ++ r.company_name ++ " just posted a new internship!\n\n### Role: " ++
        ("[" ++ r.title ++ "](<" ++ r.url ++ ">)") ++ "\n### Location: " ++
        locationStr r.locations ++ "\n### Season: ",
      "\n### Sponsorship: `" ++ r.sponsorship ++ "`\n### Posted on: " ++ now ++ "\n",
      ?_⟩,
    ⟨"\n>>> # " ++ r.company_name ++ " just posted a new internship!\n\n### Role: " ++
        ("[" ++ r.title ++ "](<" ++ r.url ++ ">)") ++ "\n### Location: " ++
        locationStr r.locations ++ "\n### Season: " ++ r.season ++
        "\n### Sponsorship: `",
      "`\n### Posted on: " ++ now ++ "\n",
      ?_⟩,
    ⟨"\n>>> # " ++ r.company_name ++ " just posted a new internship!\n\n### Role: " ++
        ("[" ++ r.title ++ "](<" ++ r.url ++ ">)") ++ "\n### Location: " ++
        locationStr r.locations ++ "\n### Season: " ++ r.season ++
        "\n### Sponsorship: `" ++ r.sponsorship ++ "`\n### Posted on: ",
      "\n",
      ?_⟩⟩ <;>
    · apply String.ext
      simp [formatMessage, String.data_append, List.append_assoc]

/-- C10: the formatter over a raw role dict is defined exactly when all of
`locations`, `company_name`, `title`, `url`, `season` and `sponsorship`
are present; applied to a record missing the `season` key (the others
present) it fails with that key's lookup error instead of omitting the
field. -/
theorem formatMessageDict_requires_all_fields (now : String) (d : RoleDict) :
    exOk (formatMessageDict now d)
        = (d.locations.isSome && d.company_name.isSome && d.title.isSome &&
            d.url.isSome && d.season.isSome && d.sponsorship.isSome) ∧
      ∀ locs cn t u sp, formatMessageDict now
          (RoleDict.mk (some locs) (some cn) (some t) (some u) none (some sp))
        = Except.error ("KeyError: " ++ "season") := by
  constructor
  · rcases d with ⟨lo, cn, t, u, se, sp⟩
    cases lo <;> cases cn <;> cases t <;> cases u <;> cases se <;> cases sp <;> rfl
  · intro locs cn t u sp
    rfl

end CronCheck
